import Mathlib

/-!
Shallow embedding of the Orcutt Schools chatbot front-end core:
the session/conversation manager (`src/hooks/useChat.js`) and the
remote chat gateway client (`src/services/apiService.js`).

JavaScript values are modelled as follows: strings as `String`,
numbers as `ℚ` (exact arithmetic for response times and ids),
`Date.now()` readings as `ℕ`, optional object fields as `Option`,
and JS truthiness tests on strings/numbers as explicit comparisons
with `""` / `0`.
-/

namespace OrcuttChat

/-- A citation attached to an assistant message (`sources` entries of the
chat API response). -/
structure Source where
  filename : String
  url : Option String := none
  presignedUrl : Option String := none
  deriving Repr, DecidableEq

/-- The `role` field of a chat message. -/
inductive Role where
  | user
  | assistant
  deriving Repr, DecidableEq

/-- The id and timestamp a freshly built message receives in `addMessage`
(`Date.now() + Math.random()` and `new Date()`); both come from ambient
time/randomness sources, so the embedding passes them in explicitly. -/
structure Stamp where
  id : ℚ
  time : ℕ
  deriving Repr, DecidableEq

/-- One entry of the `messages` log built by `addMessage` in
`src/hooks/useChat.js`: `{id, role, content, timestamp, ...metadata}`.
Metadata fields that a given call does not pass are `none` / `false`. -/
structure Message where
  id : ℚ
  role : Role
  content : String
  timestamp : ℕ
  responseTime : Option ℚ := none
  queryType : Option String := none
  sources : Option (List Source) := none
  isError : Bool := false
  deriving Repr, DecidableEq

/-- The payload resolved by `chatService.sendMessage` (the parsed
`response.data` of `POST /chat`). -/
structure ChatResponse where
  success : Bool
  response : String := ""
  responseTime : Option ℚ := none
  queryType : Option String := none
  sources : Option (List Source) := none
  error : Option String := none
  deriving Repr, DecidableEq

/-- Outcome of one awaited `chatService.sendMessage` call as seen by the
hook: either the promise resolves with a payload, or it rejects and the
`catch` receives an `Error` whose `message` is the given string. -/
inductive GatewayResult where
  | ok (payload : ChatResponse)
  | err (message : String)
  deriving Repr, DecidableEq

/-- The state owned by the `useChat` hook: `messages`, `isLoading`,
`error`, `sources`, `sessionId`. -/
structure ChatState where
  messages : List Message
  isLoading : Bool
  error : Option String
  sources : List Source
  sessionId : String
  deriving Repr, DecidableEq

/-- `generateSessionId`: `Date.now().toString()`, with the clock reading
passed in explicitly. -/
def generateSessionId (now : ℕ) : String :=
  Nat.repr now

/-- The hook's initial state: empty log, not loading, no error, no
sources, and a fresh session id generated at mount. -/
def initialState (now : ℕ) : ChatState :=
  { messages := []
    isLoading := false
    error := none
    sources := []
    sessionId := generateSessionId now }

/-- The message appended by `addMessage('user', message)`. -/
def mkUserMessage (content : String) (s : Stamp) : Message :=
  { id := s.id, role := Role.user, content := content, timestamp := s.time }

/-- The message appended by `addMessage('assistant', response.response,
\x7bresponseTime, queryType, sources: response.sources || []\x7d)` on
gateway success. -/
def mkAssistantMessage (p : ChatResponse) (s : Stamp) : Message :=
  { id := s.id
    role := Role.assistant
    content := p.response
    timestamp := s.time
    responseTime := p.responseTime
    queryType := p.queryType
    sources := some (p.sources.getD []) }

/-- The fixed user-facing apology text used for synthetic error
messages. -/
def apologyText : String :=
  "I apologize, but I encountered an error. Please try again or contact the school directly for assistance."

/-- The synthetic assistant message appended in the `catch` branch:
fixed apology content with `isError: true`. -/
def mkErrorMessage (s : Stamp) : Message :=
  { id := s.id
    role := Role.assistant
    content := apologyText
    timestamp := s.time
    isError := true }

/-- JavaScript `a || b` on an optional string: the fallback is used when
the field is absent or empty (the empty string is falsy). -/
def jsStringOr (o : Option String) (fallback : String) : String :=
  match o with
  | some s => if s = "" then fallback else s
  | none => fallback

/-- JavaScript `String.prototype.trim`: drop whitespace characters from
both ends of the string, modelled structurally on the character list. -/
def jsTrim (s : String) : String :=
  String.mk ((s.data.dropWhile Char.isWhitespace).reverse.dropWhile Char.isWhitespace).reverse

/-- The synchronous prefix of `sendMessage` up to (and excluding) the
awaited gateway call: the guard `if (!message.trim() || isLoading ||
!sessionId) return;`, then `setError(null)`, `addMessage('user',
message)`, `setIsLoading(true)`. Returns `none` when the guard drops the
send (no gateway call is issued). -/
def sendStart (st : ChatState) (text : String) (su : Stamp) : Option ChatState :=
  if jsTrim text = "" ∨ st.isLoading = true ∨ st.sessionId = "" then
    none
  else
    some { st with
      error := none
      messages := st.messages ++ [mkUserMessage text su]
      isLoading := true }

/-- The continuation of `sendMessage` after the awaited gateway call,
applied to whatever state is current when the promise settles (all state
updates are functional: `setMessages(prev => [...prev, m])` appends to
the log as it is at settlement time). On `response.success`: append the
assistant message, replace `sources` with `response.sources || []`,
`setIsLoading(false)`. Otherwise the hook throws
`new Error(response.error || 'Failed to get response')`, and the `catch`
sets the error flag to the thrown message and appends the fixed apology
message; a rejected gateway promise takes the same `catch` path with the
rejection's message. `finally` clears `isLoading` in every case. -/
def sendFinish (cur : ChatState) (gw : GatewayResult) (sa : Stamp) : ChatState :=
  match gw with
  | GatewayResult.ok p =>
    if p.success then
      { cur with
        messages := cur.messages ++ [mkAssistantMessage p sa]
        sources := p.sources.getD []
        isLoading := false }
    else
      { cur with
        error := some (jsStringOr p.error "Failed to get response")
        messages := cur.messages ++ [mkErrorMessage sa]
        isLoading := false }
  | GatewayResult.err m =>
      { cur with
        error := some m
        messages := cur.messages ++ [mkErrorMessage sa]
        isLoading := false }

/-- One complete `sendMessage(message)` call with no interleaved state
change between issuing the gateway call and its settlement: the guarded
synchronous prefix followed by the settlement continuation, or the
unchanged state when the guard drops the send. -/
def sendMessage (st : ChatState) (text : String) (gw : GatewayResult)
    (su sa : Stamp) : ChatState :=
  match sendStart st text su with
  | none => st
  | some st1 => sendFinish st1 gw sa

/-- `clearChat`: `setMessages([])`, `setSources([])`, `setError(null)`,
and a new session id from `generateSessionId()` at the current clock
reading. `isLoading` is not touched. -/
def clearChat (st : ChatState) (now : ℕ) : ChatState :=
  { st with
    messages := []
    sources := []
    error := none
    sessionId := generateSessionId now }

/-- JavaScript truthiness of the optional `responseTime` field:
an absent value and the number `0` are falsy. -/
def truthyResponseTime : Option ℚ → Bool
  | none => false
  | some q => q ≠ 0

/-- `getAverageResponseTime`: filter the log to assistant messages with a
truthy `responseTime`, take those times, and return `0` on the empty
list, else their sum divided by their count. -/
def getAverageResponseTime (messages : List Message) : ℚ :=
  let responseTimes :=
    (messages.filter
      (fun m => m.role == Role.assistant && truthyResponseTime m.responseTime)).map
      (fun m => m.responseTime.getD 0)
  if responseTimes.length = 0 then 0
  else responseTimes.sum / responseTimes.length

/-! Remote chat gateway client (`src/services/apiService.js`). -/

/-- The `timeout` configured on the axios instance: 30000 milliseconds. -/
def apiClientTimeoutMs : ℕ := 30000

/-- The HTTP response attached to an axios failure, as used by the
response interceptor: its status code and the optional `error` field of
its body (`error.response.data?.error`). -/
structure AxiosResponse where
  status : ℕ
  dataError : Option String := none
  deriving Repr, DecidableEq

/-- An axios failure as consumed by the response interceptor: the
optional `code` (equal to `"ECONNABORTED"` when the configured timeout
fired), the optional response (present when the remote answered with an
error status), and whether a request object exists (`error.request`,
present when the request went out but no response arrived). -/
structure AxiosFailure where
  code : Option String := none
  response : Option AxiosResponse := none
  hasRequest : Bool := false
  deriving Repr, DecidableEq

/-- Message thrown for a fired timeout. -/
def timeoutMessage : String := "Request timeout - please try again"

/-- Message thrown for a 401 response. -/
def authFailedMessage : String := "Authentication failed - please sign in again"

/-- Message thrown for a 403 response. -/
def accessForbiddenMessage : String := "Access forbidden - insufficient permissions"

/-- Generic label thrown for other error responses without a usable
payload message. -/
def serverErrorFallback : String := "Server error occurred"

/-- Message thrown when no response reached the client. -/
def networkErrorMessage : String := "Network error - please check your connection"

/-- Message thrown on any other failure path. -/
def unexpectedErrorMessage : String := "An unexpected error occurred"

/-- The response interceptor's error branch: the message of the `Error`
it throws for a given axios failure, following the source's cascade:
`ECONNABORTED` first, then status 401 / 403 / any other response (with
`error.response.data?.error || 'Server error occurred'`), then
`error.request` present, then the catch-all. -/
def normalizeAxiosError (e : AxiosFailure) : String :=
  if e.code = some "ECONNABORTED" then
    timeoutMessage
  else
    match e.response with
    | some r =>
      if r.status = 401 then authFailedMessage
      else if r.status = 403 then accessForbiddenMessage
      else jsStringOr r.dataError serverErrorFallback
    | none =>
      if e.hasRequest then networkErrorMessage
      else unexpectedErrorMessage

/-- Outcome of `fetchAuthSession()` as seen by `getAuthHeaders`: the call
either resolves, carrying `session.tokens?.idToken?.toString()` when that
chain is defined, or rejects. -/
inductive AuthSessionOutcome where
  | ok (token : Option String)
  | failed
  deriving Repr, DecidableEq

/-- The `Content-Type` header pair every request carries. -/
def contentTypeHeader : String × String := ("Content-Type", "application/json")

/-- `getAuthHeaders`: when a truthy token is obtained, return
`Content-Type` plus `Authorization: Bearer <token>`; when the token is
absent or empty, or `fetchAuthSession` rejects, return `Content-Type`
alone (the warning / error is only logged). -/
def getAuthHeaders : AuthSessionOutcome → List (String × String)
  | AuthSessionOutcome.ok (some t) =>
    if t = "" then [contentTypeHeader]
    else [contentTypeHeader, ("Authorization", "Bearer " ++ t)]
  | AuthSessionOutcome.ok none => [contentTypeHeader]
  | AuthSessionOutcome.failed => [contentTypeHeader]

/-- The request interceptor: merge the headers already on the config with
the freshly obtained auth headers and pass the request on (it never
rejects a request of its own accord). -/
def interceptRequest (configHeaders : List (String × String))
    (o : AuthSessionOutcome) : List (String × String) :=
  configHeaders ++ getAuthHeaders o

/-! Derived notions used to state the verified properties. -/

/-- One send of a sequence: the submitted text, the payload the gateway
resolves with, and the stamps of the two messages the exchange appends. -/
structure SendInput where
  text : String
  payload : ChatResponse
  userStamp : Stamp
  assistantStamp : Stamp
  deriving Repr, DecidableEq

/-- Run a sequence of complete `sendMessage` calls, each gateway call
resolving with its input's payload. -/
def runSends (st : ChatState) (inputs : List SendInput) : ChatState :=
  inputs.foldl
    (fun s i => sendMessage s i.text (GatewayResult.ok i.payload) i.userStamp i.assistantStamp)
    st

/-- The two messages one successful exchange appends, user first. -/
def turnMessages (i : SendInput) : List Message :=
  [mkUserMessage i.text i.userStamp, mkAssistantMessage i.payload i.assistantStamp]

/-- The single message the settlement continuation appends: the assistant
response on a successful payload, the synthetic apology message
otherwise. -/
def finishMessage (gw : GatewayResult) (sa : Stamp) : Message :=
  match gw with
  | GatewayResult.ok p => if p.success then mkAssistantMessage p sa else mkErrorMessage sa
  | GatewayResult.err _ => mkErrorMessage sa

/-- Spec reading of the metric input: the `responseTime` values of all
assistant messages that carry one, present values only, zero included. -/
def carriedResponseTimes (messages : List Message) : List ℚ :=
  messages.filterMap (fun m =>
    match m.responseTime with
    | some q => if m.role = Role.assistant then some q else none
    | none => none)

/-- Spec reading of the metric: the arithmetic mean of `responseTime`
over all assistant messages that carry one, `0` when none does. -/
def averageResponseTimeSpec (messages : List Message) : ℚ :=
  if carriedResponseTimes messages = [] then 0
  else (carriedResponseTimes messages).sum / (carriedResponseTimes messages).length

/-- The `responseTime` values of all assistant messages that carry a
nonzero one — the entries the source's truthiness filter keeps. -/
def carriedNonzeroResponseTimes (messages : List Message) : List ℚ :=
  messages.filterMap (fun m =>
    match m.responseTime with
    | some q => if m.role = Role.assistant ∧ q ≠ 0 then some q else none
    | none => none)

/-! Helper lemmas shared by the verified properties. -/

theorem sendStart_eq_none (st : ChatState) (text : String) (su : Stamp)
    (h : jsTrim text = "" ∨ st.isLoading = true ∨ st.sessionId = "") :
    sendStart st text su = none := by
  unfold sendStart
  exact if_pos h

theorem sendStart_eq_some (st : ChatState) (text : String) (su : Stamp)
    (ht : jsTrim text ≠ "") (hb : st.isLoading = false) (hs : st.sessionId ≠ "") :
    sendStart st text su =
      some { st with
        error := none
        messages := st.messages ++ [mkUserMessage text su]
        isLoading := true } := by
  unfold sendStart
  rw [if_neg]
  push_neg
  exact ⟨ht, by simp [hb], hs⟩

theorem sendMessage_ok_eq (st : ChatState) (text : String) (p : ChatResponse)
    (su sa : Stamp) (ht : jsTrim text ≠ "") (hb : st.isLoading = false)
    (hs : st.sessionId ≠ "") (hp : p.success = true) :
    sendMessage st text (GatewayResult.ok p) su sa =
      { st with
        error := none
        messages := st.messages ++ [mkUserMessage text su, mkAssistantMessage p sa]
        sources := p.sources.getD []
        isLoading := false } := by
  unfold sendMessage
  rw [sendStart_eq_some st text su ht hb hs]
  simp [sendFinish, hp]

theorem sendMessage_err_eq (st : ChatState) (text : String) (E : String)
    (su sa : Stamp) (ht : jsTrim text ≠ "") (hb : st.isLoading = false)
    (hs : st.sessionId ≠ "") :
    sendMessage st text (GatewayResult.err E) su sa =
      { st with
        error := some E
        messages := st.messages ++ [mkUserMessage text su, mkErrorMessage sa]
        isLoading := false } := by
  unfold sendMessage
  rw [sendStart_eq_some st text su ht hb hs]
  simp [sendFinish]

theorem sendMessage_badPayload_eq (st : ChatState) (text : String)
    (p : ChatResponse) (su sa : Stamp) (ht : jsTrim text ≠ "")
    (hb : st.isLoading = false) (hs : st.sessionId ≠ "")
    (hp : p.success = false) :
    sendMessage st text (GatewayResult.ok p) su sa =
      { st with
        error := some (jsStringOr p.error "Failed to get response")
        messages := st.messages ++ [mkUserMessage text su, mkErrorMessage sa]
        isLoading := false } := by
  unfold sendMessage
  rw [sendStart_eq_some st text su ht hb hs]
  simp [sendFinish, hp]

theorem sendFinish_messages (cur : ChatState) (gw : GatewayResult) (sa : Stamp) :
    (sendFinish cur gw sa).messages = cur.messages ++ [finishMessage gw sa] := by
  cases gw with
  | ok p =>
    by_cases hp : p.success = true
    · simp [sendFinish, finishMessage, hp]
    · simp [sendFinish, finishMessage, hp]
  | err m => simp [sendFinish, finishMessage]

theorem sendFinish_isLoading (cur : ChatState) (gw : GatewayResult) (sa : Stamp) :
    (sendFinish cur gw sa).isLoading = false := by
  cases gw with
  | ok p =>
    by_cases hp : p.success = true
    · simp [sendFinish, hp]
    · simp [sendFinish, hp]
  | err m => simp [sendFinish]

theorem finishMessage_role (gw : GatewayResult) (sa : Stamp) :
    (finishMessage gw sa).role = Role.assistant := by
  cases gw with
  | ok p =>
    by_cases hp : p.success = true
    · simp [finishMessage, hp, mkAssistantMessage]
    · simp [finishMessage, hp, mkErrorMessage]
  | err m => simp [finishMessage, mkErrorMessage]

theorem runSends_ok (inputs : List SendInput) (st : ChatState)
    (hb : st.isLoading = false) (hs : st.sessionId ≠ "")
    (hin : ∀ i ∈ inputs, jsTrim i.text ≠ "" ∧ i.payload.success = true) :
    (runSends st inputs).messages = st.messages ++ inputs.flatMap turnMessages ∧
    (runSends st inputs).isLoading = false ∧
    (runSends st inputs).sessionId = st.sessionId := by
  induction inputs generalizing st with
  | nil => simp [runSends, hb]
  | cons i rest ih =>
    obtain ⟨hti, hpi⟩ := hin i (List.mem_cons_self i rest)
    have hstep := sendMessage_ok_eq st i.text i.payload i.userStamp i.assistantStamp
      hti hb hs hpi
    have hrest := ih
      { st with
        error := none
        messages := st.messages ++ [mkUserMessage i.text i.userStamp,
          mkAssistantMessage i.payload i.assistantStamp]
        sources := i.payload.sources.getD []
        isLoading := false }
      rfl hs (fun j hj => hin j (List.mem_cons_of_mem i hj))
    simp only [runSends, List.foldl_cons] at *
    rw [hstep]
    refine ⟨?_, hrest.2.1, hrest.2.2⟩
    rw [hrest.1]
    simp [turnMessages]

theorem length_flatMap_turnMessages (inputs : List SendInput) :
    (inputs.flatMap turnMessages).length = 2 * inputs.length := by
  induction inputs with
  | nil => simp
  | cons i rest ih =>
    simp only [List.flatMap_cons, List.length_append, List.length_cons, ih, turnMessages]
    simp
    omega

theorem roles_flatMap_turnMessages (inputs : List SendInput) :
    (inputs.flatMap turnMessages).map Message.role =
      inputs.flatMap (fun _ => [Role.user, Role.assistant]) := by
  induction inputs with
  | nil => simp
  | cons i rest ih =>
    simp [turnMessages, mkUserMessage, mkAssistantMessage, ih]

theorem filteredTimes_eq_carriedNonzero (messages : List Message) :
    (messages.filter
      (fun m => m.role == Role.assistant && truthyResponseTime m.responseTime)).map
      (fun m => m.responseTime.getD 0) = carriedNonzeroResponseTimes messages := by
  induction messages with
  | nil => rfl
  | cons m rest ih =>
    unfold carriedNonzeroResponseTimes at ih ⊢
    rw [List.filterMap_cons, List.filter_cons]
    cases hrt : m.responseTime with
    | none => simpa [truthyResponseTime, hrt] using ih
    | some q =>
      by_cases hrole : m.role = Role.assistant
      · by_cases hq : q = 0
        · simpa [truthyResponseTime, hrt, hrole, hq] using ih
        · simpa [truthyResponseTime, hrt, hrole, hq] using ih
      · simpa [truthyResponseTime, hrt, hrole] using ih

theorem getAverageResponseTime_eq_nonzeroMean (messages : List Message) :
    getAverageResponseTime messages =
      if carriedNonzeroResponseTimes messages = [] then 0
      else (carriedNonzeroResponseTimes messages).sum /
        (carriedNonzeroResponseTimes messages).length := by
  unfold getAverageResponseTime
  rw [filteredTimes_eq_carriedNonzero]
  by_cases h : carriedNonzeroResponseTimes messages = []
  · simp [h]
  · rw [if_neg h, if_neg (by simpa using h)]

/-! Verified properties of the session manager and gateway client. -/

/-- Claim C1: for every sequence of sends whose texts are non-empty after
trimming, issued from a fresh (empty-log, idle, session-present) state,
with every gateway call resolving successfully, the final log is exactly
the concatenation, in issue order, of one user message followed by its
assistant message per send — hence has length `2 * N`, alternates
strictly between the `user` and `assistant` roles, and is never reordered
(the log is an append-only function of the send sequence). -/
theorem sends_log_length_and_order (st : ChatState) (inputs : List SendInput)
    (hm : st.messages = []) (hb : st.isLoading = false) (hs : st.sessionId ≠ "")
    (hin : ∀ i ∈ inputs, jsTrim i.text ≠ "" ∧ i.payload.success = true) :
    (runSends st inputs).messages = inputs.flatMap turnMessages ∧
    (runSends st inputs).messages.length = 2 * inputs.length ∧
    (runSends st inputs).messages.map Message.role =
      inputs.flatMap (fun _ => [Role.user, Role.assistant]) := by
  obtain ⟨h1, _, _⟩ := runSends_ok inputs st hb hs hin
  rw [h1, hm, List.nil_append]
  exact ⟨rfl, length_flatMap_turnMessages inputs, roles_flatMap_turnMessages inputs⟩

/-- Witness for C1 at a concrete two-send run. -/
theorem sends_log_length_and_order_witness :
    (runSends (initialState 5)
      [⟨"hi", { success := true, response := "a" }, ⟨1, 1⟩, ⟨2, 2⟩⟩,
       ⟨"there", { success := true, response := "b" }, ⟨3, 3⟩, ⟨4, 4⟩⟩]).messages.length =
      2 * 2 := by
  exact (sends_log_length_and_order (initialState 5)
    [⟨"hi", { success := true, response := "a" }, ⟨1, 1⟩, ⟨2, 2⟩⟩,
     ⟨"there", { success := true, response := "b" }, ⟨3, 3⟩, ⟨4, 4⟩⟩]
    rfl rfl (by decide) (by decide)).2.1

/-- Claim C2: when the manager is busy, or the text trims to empty, or the
session id is absent, `sendMessage` is a complete no-op: the whole state
(log, session id, sources, error flag, busy flag) is returned unchanged
whatever the gateway would have answered, and the guarded prefix issues
no gateway call at all. -/
theorem send_blocked_is_noop (st : ChatState) (text : String)
    (gw : GatewayResult) (su sa : Stamp)
    (h : st.isLoading = true ∨ jsTrim text = "" ∨ st.sessionId = "") :
    sendMessage st text gw su sa = st ∧ sendStart st text su = none := by
  have hn : sendStart st text su = none := sendStart_eq_none st text su (by tauto)
  constructor
  · unfold sendMessage
    rw [hn]
  · exact hn

/-- Witness for C2 at a busy state. -/
theorem send_blocked_is_noop_witness :
    sendMessage { initialState 5 with isLoading := true } "hi"
      (GatewayResult.err "boom") ⟨1, 1⟩ ⟨2, 2⟩ =
      { initialState 5 with isLoading := true } := by
  exact (send_blocked_is_noop { initialState 5 with isLoading := true } "hi"
    (GatewayResult.err "boom") ⟨1, 1⟩ ⟨2, 2⟩ (Or.inl rfl)).1

/-- Claim C3: when the gateway call rejects with message `E`, the send
leaves the error flag equal to the raw `E`, appends exactly the user
message followed by a synthetic assistant message whose content is the
fixed apology string (not `E`) and whose `isError` flag is set, returns
the busy flag to false, and leaves the sources view exactly as it was. -/
theorem send_gateway_failure (st : ChatState) (text E : String) (su sa : Stamp)
    (ht : jsTrim text ≠ "") (hb : st.isLoading = false) (hs : st.sessionId ≠ "") :
    (sendMessage st text (GatewayResult.err E) su sa).error = some E ∧
    (sendMessage st text (GatewayResult.err E) su sa).messages =
      st.messages ++ [mkUserMessage text su, mkErrorMessage sa] ∧
    (mkUserMessage text su).role = Role.user ∧
    (mkErrorMessage sa).role = Role.assistant ∧
    (mkErrorMessage sa).content = apologyText ∧
    (mkErrorMessage sa).isError = true ∧
    (sendMessage st text (GatewayResult.err E) su sa).isLoading = false ∧
    (sendMessage st text (GatewayResult.err E) su sa).sources = st.sources := by
  simp [sendMessage_err_eq st text E su sa ht hb hs, mkUserMessage, mkErrorMessage]

/-- Witness for C3 at a concrete failing send. -/
theorem send_gateway_failure_witness :
    (sendMessage (initialState 5) "bad input"
      (GatewayResult.err "Guardrail violation") ⟨1, 1⟩ ⟨2, 2⟩).error =
      some "Guardrail violation" := by
  exact (send_gateway_failure (initialState 5) "bad input" "Guardrail violation"
    ⟨1, 1⟩ ⟨2, 2⟩ (by decide) rfl (by decide)).1

/-- Claim C5: when the gateway call resolves successfully, the sources
view afterwards equals exactly the payload's sources (the empty sequence
when absent) — replacing, never unioning with, the previous view — and
the log gains one assistant message carrying the response text, response
time and those sources. -/
theorem send_gateway_success (st : ChatState) (text : String) (p : ChatResponse)
    (su sa : Stamp) (ht : jsTrim text ≠ "") (hb : st.isLoading = false)
    (hs : st.sessionId ≠ "") (hp : p.success = true) :
    (sendMessage st text (GatewayResult.ok p) su sa).sources = p.sources.getD [] ∧
    (sendMessage st text (GatewayResult.ok p) su sa).messages =
      st.messages ++ [mkUserMessage text su, mkAssistantMessage p sa] ∧
    (mkAssistantMessage p sa).role = Role.assistant ∧
    (mkAssistantMessage p sa).content = p.response ∧
    (mkAssistantMessage p sa).responseTime = p.responseTime ∧
    (mkAssistantMessage p sa).sources = some (p.sources.getD []) ∧
    (sendMessage st text (GatewayResult.ok p) su sa).isLoading = false := by
  simp [sendMessage_ok_eq st text p su sa ht hb hs hp, mkAssistantMessage]

/-- Witness for C5 at a concrete successful send carrying one source. -/
theorem send_gateway_success_witness :
    (sendMessage { initialState 5 with sources := [⟨"old.pdf", none, none⟩] } "hours?"
      (GatewayResult.ok
        { success := true, response := "8am"
          sources := some [⟨"handbook.pdf", some "https://x", none⟩] })
      ⟨1, 1⟩ ⟨2, 2⟩).sources = [⟨"handbook.pdf", some "https://x", none⟩] := by
  exact (send_gateway_success { initialState 5 with sources := [⟨"old.pdf", none, none⟩] }
    "hours?"
    { success := true, response := "8am"
      sources := some [⟨"handbook.pdf", some "https://x", none⟩] }
    ⟨1, 1⟩ ⟨2, 2⟩ (by decide) rfl (by decide) rfl).1

/-- Counterexample to claim C4 as stated: on a log whose assistant
messages carry the response times `0` and `4`, the metric returns `4`,
while the mean over all assistant messages that carry a response time is
`2` — the source's truthiness filter silently drops the zero entry. -/
theorem averageResponseTime_zero_entry_counterexample :
    getAverageResponseTime
      [{ id := 1, role := Role.assistant, content := "a", timestamp := 0,
         responseTime := some 0 },
       { id := 2, role := Role.assistant, content := "b", timestamp := 0,
         responseTime := some 4 }] = 4 ∧
    averageResponseTimeSpec
      [{ id := 1, role := Role.assistant, content := "a", timestamp := 0,
         responseTime := some 0 },
       { id := 2, role := Role.assistant, content := "b", timestamp := 0,
         responseTime := some 4 }] = 2 ∧
    (4 : ℚ) ≠ 2 := by
  refine ⟨?_, ?_, by norm_num⟩
  · simp [getAverageResponseTime, truthyResponseTime, List.filter]
  · simp [averageResponseTimeSpec, carriedResponseTimes, List.filterMap]
    norm_num

/-- Claim C4 as amended: `getAverageResponseTime` is a pure function of
the log equal to the arithmetic mean of `responseTime` over all assistant
messages carrying a nonzero response time, returning `0` when there is no
such message; in particular over the carried entries `[2, 4]` it returns
`3`. -/
theorem averageResponseTime_is_nonzero_mean (messages : List Message) :
    getAverageResponseTime messages =
      (if carriedNonzeroResponseTimes messages = [] then 0
       else
         (carriedNonzeroResponseTimes messages).sum /
           (carriedNonzeroResponseTimes messages).length) ∧
    getAverageResponseTime [] = 0 ∧
    getAverageResponseTime
      [{ id := 1, role := Role.assistant, content := "a", timestamp := 0,
         responseTime := some 2 },
       { id := 2, role := Role.assistant, content := "b", timestamp := 0,
         responseTime := some 4 }] = 3 := by
  refine ⟨getAverageResponseTime_eq_nonzeroMean messages, rfl, ?_⟩
  simp [getAverageResponseTime, truthyResponseTime, List.filter]
  norm_num

/-- Counterexample to claim C6 as stated: `clearChat` invoked at the same
clock reading that produced the current session id yields an empty log
but the very same session id, not a different one. -/
theorem clearChat_same_clock_counterexample :
    (clearChat (initialState 5) 5).messages = [] ∧
    (clearChat (initialState 5) 5).sessionId = (initialState 5).sessionId := by
  exact ⟨rfl, rfl⟩

/-- Claim C6 as amended: `clearChat` always yields an empty log, empty
sources and a cleared error flag, and regenerates the session id from the
current clock reading; the new id differs from the one held before
whenever that reading's string differs from the previous id (in
particular whenever the clock has moved past the reading that produced
it). -/
theorem clearChat_resets_state (st : ChatState) (now : ℕ) :
    (clearChat st now).messages = [] ∧
    (clearChat st now).sources = [] ∧
    (clearChat st now).error = none ∧
    (clearChat st now).sessionId = generateSessionId now ∧
    (generateSessionId now ≠ st.sessionId →
      (clearChat st now).sessionId ≠ st.sessionId) := by
  exact ⟨rfl, rfl, rfl, rfl, fun h => h⟩

/-- Witness for the amended C6 on an already-empty log with an advanced
clock. -/
theorem clearChat_resets_state_witness :
    (clearChat (initialState 5) 6).messages = [] ∧
    (clearChat (initialState 5) 6).sessionId ≠ (initialState 5).sessionId := by
  exact ⟨(clearChat_resets_state (initialState 5) 6).1,
    (clearChat_resets_state (initialState 5) 6).2.2.2.2 (by decide)⟩

/-- Counterexample to claim C7 as stated: for an error response with
status 500 whose payload carries a present but empty `error` field, the
interceptor throws the generic server-error label rather than the
payload's message — the empty string is present yet not used. -/
theorem serverError_empty_payload_counterexample :
    normalizeAxiosError
      { code := none, response := some { status := 500, dataError := some "" },
        hasRequest := true } = serverErrorFallback ∧
    serverErrorFallback ≠ "" := by
  exact ⟨rfl, by decide⟩

/-- Claim C7 as amended: every gateway failure surfaces as exactly one of
the six taxonomy errors — the timeout message when the configured
30000 ms bound fired (`ECONNABORTED`), the authentication message on a
401 response, the access-forbidden message on a 403 response, for any
other error response the payload's `error` field when present and
non-empty and the generic server-error label otherwise, the network-error
message when a request went out but no response arrived, and the
unexpected-error message on any other failure path. -/
theorem gateway_failure_taxonomy (e : AxiosFailure) :
    apiClientTimeoutMs = 30000 ∧
    (e.code = some "ECONNABORTED" → normalizeAxiosError e = timeoutMessage) ∧
    (e.code ≠ some "ECONNABORTED" →
      (∀ r, e.response = some r →
        (r.status = 401 → normalizeAxiosError e = authFailedMessage) ∧
        (r.status = 403 → normalizeAxiosError e = accessForbiddenMessage) ∧
        (r.status ≠ 401 → r.status ≠ 403 →
          (∀ s, r.dataError = some s → s ≠ "" → normalizeAxiosError e = s) ∧
          (r.dataError = none ∨ r.dataError = some "" →
            normalizeAxiosError e = serverErrorFallback))) ∧
      (e.response = none → e.hasRequest = true →
        normalizeAxiosError e = networkErrorMessage) ∧
      (e.response = none → e.hasRequest = false →
        normalizeAxiosError e = unexpectedErrorMessage)) := by
  refine ⟨rfl, ?_, ?_⟩
  · intro hc
    unfold normalizeAxiosError
    rw [if_pos hc]
  · intro hc
    refine ⟨?_, ?_, ?_⟩
    · intro r hr
      refine ⟨?_, ?_, ?_⟩
      · intro h401
        unfold normalizeAxiosError
        rw [if_neg hc, hr]
        simp [h401]
      · intro h403
        unfold normalizeAxiosError
        rw [if_neg hc, hr]
        simp [h403]
      · intro h401 h403
        constructor
        · intro s hse hsne
          unfold normalizeAxiosError
          rw [if_neg hc, hr]
          simp [h401, h403, jsStringOr, hse, hsne]
        · intro hde
          unfold normalizeAxiosError
          rw [if_neg hc, hr]
          rcases hde with hde | hde <;> simp [h401, h403, jsStringOr, hde]
    · intro hr hreq
      unfold normalizeAxiosError
      rw [if_neg hc, hr]
      simp [hreq]
    · intro hr hreq
      unfold normalizeAxiosError
      rw [if_neg hc, hr]
      simp [hreq]

/-- Witness for the amended C7 at a concrete fired timeout. -/
theorem gateway_failure_taxonomy_witness :
    normalizeAxiosError
      { code := some "ECONNABORTED", response := none, hasRequest := false } =
      timeoutMessage := by
  exact (gateway_failure_taxonomy
    { code := some "ECONNABORTED", response := none, hasRequest := false }).2.1 rfl

/-- Claim C8: when the credential collaborator yields a usable (non-empty)
token the request's headers carry `Authorization: Bearer` with exactly
that token; when it yields no usable token or fails outright, the headers
are still produced — the content-type header alone, with no
`Authorization` entry — so the request is issued rather than failing
client-side, and in every case the interceptor forwards the request with
the merged headers. -/
theorem auth_header_policy (o : AuthSessionOutcome) :
    (∀ t, o = AuthSessionOutcome.ok (some t) → t ≠ "" →
      getAuthHeaders o = [contentTypeHeader, ("Authorization", "Bearer " ++ t)]) ∧
    (o = AuthSessionOutcome.ok none ∨ o = AuthSessionOutcome.ok (some "") ∨
      o = AuthSessionOutcome.failed →
      getAuthHeaders o = [contentTypeHeader]) ∧
    contentTypeHeader ∈ getAuthHeaders o ∧
    (∀ ch, interceptRequest ch o = ch ++ getAuthHeaders o) := by
  refine ⟨?_, ?_, ?_, fun ch => rfl⟩
  · intro t hto htne
    subst hto
    simp [getAuthHeaders, htne]
  · intro ho
    rcases ho with ho | ho | ho <;> subst ho <;> simp [getAuthHeaders]
  · cases o with
    | ok tok =>
      cases tok with
      | none => simp [getAuthHeaders]
      | some t =>
        by_cases ht : t = ""
        · simp [getAuthHeaders, ht]
        · simp [getAuthHeaders, ht]
    | failed => simp [getAuthHeaders]

/-- Witness for C8 at a concrete obtained token and a concrete failed
session. -/
theorem auth_header_policy_witness :
    getAuthHeaders (AuthSessionOutcome.ok (some "tok")) =
      [contentTypeHeader, ("Authorization", "Bearer " ++ "tok")] ∧
    getAuthHeaders AuthSessionOutcome.failed = [contentTypeHeader] := by
  exact ⟨(auth_header_policy (AuthSessionOutcome.ok (some "tok"))).1 "tok" rfl (by decide),
    (auth_header_policy AuthSessionOutcome.failed).2.1 (Or.inr (Or.inr rfl))⟩

/-- Counterexample to claim C9 as stated: for a resolved payload with
`success = false` whose `error` field is present but empty, the error
flag is set to the fixed fallback string, not to the payload's (empty)
error field. -/
theorem failed_payload_empty_error_counterexample :
    (sendMessage (initialState 5) "hi"
      (GatewayResult.ok { success := false, error := some "" }) ⟨1, 1⟩ ⟨2, 2⟩).error =
      some "Failed to get response" ∧
    some "Failed to get response" ≠ some "" := by
  exact ⟨by decide, by decide⟩

/-- Claim C9 as amended: when the gateway call resolves but the payload's
`success` field is falsy, the manager treats it as a failure: the error
flag is set to the payload's `error` field when present and non-empty and
to the fixed string `Failed to get response` otherwise, the fixed-apology
assistant message with `isError = true` is appended after the user
message, the sources view is left unchanged, and the busy flag returns to
false. -/
theorem send_unsuccessful_payload (st : ChatState) (text : String)
    (p : ChatResponse) (su sa : Stamp) (ht : jsTrim text ≠ "")
    (hb : st.isLoading = false) (hs : st.sessionId ≠ "") (hp : p.success = false) :
    (∀ s, p.error = some s → s ≠ "" →
      (sendMessage st text (GatewayResult.ok p) su sa).error = some s) ∧
    (p.error = none ∨ p.error = some "" →
      (sendMessage st text (GatewayResult.ok p) su sa).error =
        some "Failed to get response") ∧
    (sendMessage st text (GatewayResult.ok p) su sa).messages =
      st.messages ++ [mkUserMessage text su, mkErrorMessage sa] ∧
    (mkErrorMessage sa).content = apologyText ∧
    (mkErrorMessage sa).isError = true ∧
    (sendMessage st text (GatewayResult.ok p) su sa).sources = st.sources ∧
    (sendMessage st text (GatewayResult.ok p) su sa).isLoading = false := by
  have heq := sendMessage_badPayload_eq st text p su sa ht hb hs hp
  refine ⟨?_, ?_, by simp [heq], rfl, rfl, by simp [heq], by simp [heq]⟩
  · intro s hse hsne
    simp [heq, jsStringOr, hse, hsne]
  · intro hde
    rcases hde with hde | hde <;> simp [heq, jsStringOr, hde]

/-- Witness for the amended C9 at a concrete unsuccessful payload with a
non-empty error field. -/
theorem send_unsuccessful_payload_witness :
    (sendMessage (initialState 5) "hi"
      (GatewayResult.ok { success := false, error := some "Guardrail violation" })
      ⟨1, 1⟩ ⟨2, 2⟩).error = some "Guardrail violation" := by
  exact (send_unsuccessful_payload (initialState 5) "hi"
    { success := false, error := some "Guardrail violation" } ⟨1, 1⟩ ⟨2, 2⟩
    (by decide) rfl (by decide) rfl).1 "Guardrail violation" rfl (by decide)

/-- Claim C10: `clearChat` neither resets the busy flag nor cancels an
in-flight gateway call — after the guarded prefix of a send has run,
clearing empties the log and regenerates the session id while the busy
flag stays true, and when the pending call later settles its single
assistant-role message (response or apology) is still appended to the
now-empty log, which therefore begins with an assistant message, the busy
flag only then returning to false. -/
theorem clear_ignores_inflight (st : ChatState) (text : String) (su sa : Stamp)
    (now : ℕ) (gw : GatewayResult) (st1 : ChatState)
    (h : sendStart st text su = some st1) :
    (clearChat st1 now).messages = [] ∧
    (clearChat st1 now).isLoading = true ∧
    (clearChat st1 now).sessionId = generateSessionId now ∧
    (sendFinish (clearChat st1 now) gw sa).messages = [finishMessage gw sa] ∧
    (finishMessage gw sa).role = Role.assistant ∧
    (sendFinish (clearChat st1 now) gw sa).isLoading = false := by
  have h1 : st1.isLoading = true := by
    unfold sendStart at h
    split at h
    · exact absurd h (by simp)
    · obtain rfl : _ = st1 := Option.some.inj h
      rfl
  refine ⟨rfl, ?_, rfl, ?_, finishMessage_role gw sa, sendFinish_isLoading _ gw sa⟩
  · exact h1
  · rw [sendFinish_messages]
    simp [clearChat]

/-- Witness for C10 at a concrete interrupted send. -/
theorem clear_ignores_inflight_witness :
    (clearChat
      { initialState 5 with
        error := none
        messages := [mkUserMessage "hi" ⟨1, 1⟩]
        isLoading := true } 6).isLoading = true ∧
    (sendFinish
      (clearChat
        { initialState 5 with
          error := none
          messages := [mkUserMessage "hi" ⟨1, 1⟩]
          isLoading := true } 6)
      (GatewayResult.err "boom") ⟨2, 2⟩).messages =
      [finishMessage (GatewayResult.err "boom") ⟨2, 2⟩] := by
  have h := clear_ignores_inflight (initialState 5) "hi" ⟨1, 1⟩ ⟨2, 2⟩ 6
    (GatewayResult.err "boom")
    { initialState 5 with
      error := none
      messages := [mkUserMessage "hi" ⟨1, 1⟩]
      isLoading := true }
    (by decide)
  exact ⟨h.2.1, h.2.2.2.1⟩

end OrcuttChat

